import Mathlib

/-!
Shallow embedding of the nk3-diagnose diagnostic tool (src/main.rs).

Bytes are modelled as `Nat` (all values produced by the code are < 256 by
construction of the source's `u8` types; hypotheses state this where a
theorem needs it).  The PC/SC transaction's `transmit` is a black box
`Transport`: given the request bytes and the length of the caller's
response buffer it either fails (`none`, a transport error) or yields the
raw bytes the card wrote.  The buffer has a fixed length, so the bytes the
caller sees are `raw.take bufLen`.
-/

namespace NkDiagnose

/-- The constant `VID_FIRMWARE` from the source. -/
def VID_FIRMWARE : Nat := 0x1209

/-- The constant `PID_FIRMWARE` from the source. -/
def PID_FIRMWARE : Nat := 0xbeee

/-- The byte string `FIRMWARE_READER_NAME` (the ASCII bytes of
"SoloKeys Solo 2 [CCID/ICCD Interface]"). -/
def FIRMWARE_READER_NAME : List Nat :=
  [0x53, 0x6f, 0x6c, 0x6f, 0x4b, 0x65, 0x79, 0x73, 0x20, 0x53, 0x6f, 0x6c,
   0x6f, 0x20, 0x32, 0x20, 0x5b, 0x43, 0x43, 0x49, 0x44, 0x2f, 0x49, 0x43,
   0x43, 0x44, 0x20, 0x49, 0x6e, 0x74, 0x65, 0x72, 0x66, 0x61, 0x63, 0x65,
   0x5d]

/-- The admin application identifier `AID_ADMIN` = hex A00000084700000001. -/
def AID_ADMIN : List Nat := [0xA0, 0x00, 0x00, 0x08, 0x47, 0x00, 0x00, 0x00, 0x01]

/-- The provisioner application identifier `AID_PROVISIONER` =
hex A00000084701000001. -/
def AID_PROVISIONER : List Nat := [0xA0, 0x00, 0x00, 0x08, 0x47, 0x01, 0x00, 0x00, 0x01]

/-- The `Device` enum from the source. -/
inductive Device where
  | Bootloader (vid pid uuid : Nat)
  | Firmware (bus address : Nat)
deriving DecidableEq, Repr

/-- The `FirmwareReader` struct from the source. -/
structure FirmwareReader where
  uuid : Nat
  provisioner : Bool
deriving DecidableEq, Repr

/-- Errors `ccid_transmit` can produce, mirroring the anyhow error
messages of the source: the "AID too long" configuration error from the
failing `u8::try_from(data.len())`, the "Failed to transmit data to
smartcard" transport error, the "CCID response too short" framing error,
and the "CCID command failed with status code SW1 SW2" command error. -/
inductive CcidError where
  | configError
  | transportError
  | framingError
  | commandError (sw1 sw2 : Nat)
deriving DecidableEq, Repr

/-- A black-box PC/SC transmit: request bytes and response-buffer length
in, raw response bytes out (`none` models a failing transmit call). -/
def Transport : Type := List Nat → Nat → Option (List Nat)

/-- Request framing of `ccid_transmit` (lines 122-142): the 4-byte header
`[0x00, ins, p1, p2]`, then, only when `data` is non-empty, the length
byte `Lc` (which must fit a `u8`, else the "AID too long" error) and the
data, then, only when `le` is given, the single expected-length byte. -/
def ccid_request (ins p1 p2 : Nat) (data : List Nat) (le : Option Nat) :
    Except CcidError (List Nat) :=
  let header : List Nat := [0x00, ins, p1, p2]
  let leBytes : List Nat := match le with | none => [] | some l => [l]
  if data.isEmpty then
    .ok (header ++ leBytes)
  else if data.length ≤ 255 then
    .ok (header ++ data.length :: data ++ leBytes)
  else
    .error .configError

/-- Response-buffer sizing of `ccid_transmit` (lines 144-149):
`le.map(|le| match le { 0 => 256, _ => le }).unwrap_or_default() + 2`. -/
def ccid_response_len (le : Option Nat) : Nat :=
  (match le with
   | none => 0
   | some 0 => 256
   | some l => l) + 2

/-- Status-word handling of `ccid_transmit` (lines 155-161): pop `sw2`
then `sw1` from the tail (fewer than 2 bytes is the "CCID response too
short" framing error); `(0x90, 0x00)` is success with the remaining bytes
as payload, anything else the command error carrying both bytes. -/
def ccid_parse_response (response : List Nat) : Except CcidError (List Nat) :=
  match response.reverse with
  | sw2 :: sw1 :: rest =>
    if sw1 = 0x90 ∧ sw2 = 0x00 then .ok rest.reverse
    else .error (.commandError sw1 sw2)
  | _ => .error .framingError

/-- The `ccid_transmit` function (lines 119-162): frame the request,
reserve a response buffer of `ccid_response_len le` bytes, transmit, keep
the bytes actually written (`response.truncate(n)` with `n` at most the
buffer length), and interpret the trailing status word. -/
def ccid_transmit (t : Transport) (ins p1 p2 : Nat) (data : List Nat)
    (le : Option Nat) : Except CcidError (List Nat) :=
  match ccid_request ins p1 p2 data le with
  | .error e => .error e
  | .ok request =>
    let rlen := ccid_response_len le
    match t request rlen with
    | none => .error .transportError
    | some raw => ccid_parse_response (raw.take rlen)

/-- The `ccid_select` function (lines 164-168): SELECT (0xA4, 0x04, 0x00)
with the application identifier as data and no expected length; the
payload is discarded. -/
def ccid_select (t : Transport) (aid : List Nat) : Except CcidError Unit :=
  (ccid_transmit t 0xA4 0x04 0x00 aid none).map fun _ => ()

/-- The `ccid_select2` function (lines 170-175): SELECT with expected
response length 16; the payload is discarded. -/
def ccid_select2 (t : Transport) (aid : List Nat) : Except CcidError Unit :=
  (ccid_transmit t 0xA4 0x04 0x00 aid (some 16)).map fun _ => ()

/-- Errors of `admin_get_uuid`: a wrapped CCID failure, or the "Expected
16 UUID bytes" parse error from the failing `try_into` `[u8; 16]`
conversion. -/
inductive UuidError where
  | ccid (e : CcidError)
  | parse
deriving DecidableEq, Repr

/-- `u128::from_be_bytes`: big-endian interpretation of a byte list. -/
def from_be_bytes (l : List Nat) : Nat :=
  l.foldl (fun acc b => acc * 256 + b) 0

/-- Big-endian re-encoding of a value into `n` bytes, used to state the
round-trip property of the identity decoding. -/
def to_be_bytes : Nat → Nat → List Nat
  | 0, _ => []
  | n + 1, v => to_be_bytes n (v / 256) ++ [v % 256]

/-- The `admin_get_uuid` function (lines 177-187): instruction 0x62,
p1 = p2 = 0x00, no data, expected length 16; the success payload is
converted to `[u8; 16]` (any other length is the parse error) and decoded
with `u128::from_be_bytes`. -/
def admin_get_uuid (t : Transport) : Except UuidError Nat :=
  match ccid_transmit t 0x62 0x00 0x00 [] (some 16) with
  | .error e => .error (.ccid e)
  | .ok payload =>
    if payload.length = 16 then .ok (from_be_bytes payload)
    else .error .parse

/-- A connected card, as `get_firmware_reader` uses it: starting the
transaction can fail (`none`), else the exchanges go through a
`Transport`. -/
structure Card where
  transaction : Option Transport

/-- The PC/SC context as `get_firmware_reader` and `get_readers` use it:
`connect` on a reader name can fail (`none`) or yield a card. -/
structure PcscCtx where
  connect : List Nat → Option Card

/-- Errors of `get_firmware_reader`, mirroring the anyhow contexts of
lines 190-194: connect failure, transaction failure, admin-select failure
and UUID-query failure (each wrapping its cause). -/
inductive ReaderError where
  | connectFailed
  | transactionFailed
  | selectAdmin (e : CcidError)
  | queryUuid (e : UuidError)
deriving DecidableEq, Repr

/-- The `get_firmware_reader` function (lines 189-200): connect, start a
transaction, select the admin application, query the UUID — each failure
propagates — then probe the provisioner application, whose failure is
only recorded in the boolean flag. -/
def get_firmware_reader (ctx : PcscCtx) (reader : List Nat) :
    Except ReaderError FirmwareReader :=
  match ctx.connect reader with
  | none => .error .connectFailed
  | some card =>
    match card.transaction with
    | none => .error .transactionFailed
    | some t =>
      match ccid_select t AID_ADMIN with
      | .error e => .error (.selectAdmin e)
      | .ok _ =>
        match admin_get_uuid t with
        | .error e => .error (.queryUuid e)
        | .ok uuid =>
          .ok { uuid := uuid, provisioner := (ccid_select2 t AID_PROVISIONER).toBool }

/-- The `Reader` enum from the source. -/
inductive Reader where
  | Firmware (r : FirmwareReader)
  | Unsupported (e : ReaderError)
  | Other (name : List Nat)
deriving DecidableEq, Repr

/-- The per-name classification in the closure of `get_readers` (lines
207-216): a name not starting with `FIRMWARE_READER_NAME` is `Other`
immediately; otherwise `get_firmware_reader` decides between `Firmware`
and `Unsupported`. -/
def classify_reader (ctx : PcscCtx) (reader : List Nat) : Reader :=
  if FIRMWARE_READER_NAME.isPrefixOf reader then
    match get_firmware_reader ctx reader with
    | .ok r => .Firmware r
    | .error e => .Unsupported e
  else
    .Other reader

/-- The `get_readers` mapping (lines 204-217): classify each listed
reader name, in order. -/
def get_readers (ctx : PcscCtx) (names : List (List Nat)) : List Reader :=
  names.map (classify_reader ctx)

/-- Indicator for the `Firmware` variant of `Reader`. -/
def isFirmwareTag : Reader → Bool
  | .Firmware _ => true
  | _ => false

/-- Indicator for the `Unsupported` variant of `Reader`. -/
def isUnsupportedTag : Reader → Bool
  | .Unsupported _ => true
  | _ => false

/-- Indicator for the `Other` variant of `Reader`. -/
def isOtherTag : Reader → Bool
  | .Other _ => true
  | _ => false

/-- A USB device as `find_firmware_devices` sees it: a fallible
descriptor query yielding vendor and product id, plus bus number and
address. -/
structure UsbDevice where
  descriptor : Option (Nat × Nat)
  bus : Nat
  address : Nat

/-- The loop of `find_firmware_devices` (lines 84-98): query every
descriptor (a failure aborts the whole enumeration), keep exactly the
devices whose vendor and product id equal the firmware constants. -/
def find_firmware_devices : List UsbDevice → Option (List Device)
  | [] => some []
  | d :: ds =>
    match d.descriptor with
    | none => none
    | some (vid, pid) =>
      if vid = VID_FIRMWARE ∧ pid = PID_FIRMWARE then
        (find_firmware_devices ds).map fun rest =>
          Device.Firmware d.bus d.address :: rest
      else
        find_firmware_devices ds

/-- A bootloader device as reported by `lpc55::bootloader::Bootloader::list()`. -/
structure BootloaderDev where
  vid : Nat
  pid : Nat
  uuid : Nat

/-- The `find_bootloader_devices` function (lines 77-82): every listed
bootloader is converted, none filtered. -/
def find_bootloader_devices (l : List BootloaderDev) : List Device :=
  l.map fun b => Device.Bootloader b.vid b.pid b.uuid

/-- The `find_devices` function (lines 100-105): bootloader devices
followed by firmware devices; a firmware-enumeration failure fails the
whole call. -/
def find_devices (boot : List BootloaderDev) (usb : List UsbDevice) :
    Option (List Device) :=
  (find_firmware_devices usb).map fun fw => find_bootloader_devices boot ++ fw

/-- The failure modes of the device-discovery prefix of `main` (lines
221-222): enumeration failing, or the `ensure!` firing on an empty list. -/
inductive MainError where
  | enumerationFailed
  | noDevices
deriving DecidableEq, Repr

/-- The device-discovery prefix of `main` (lines 221-222): propagate an
enumeration failure, then `ensure!(!devices.is_empty(), "No supported
devices found")`. -/
def main_find_devices (boot : List BootloaderDev) (usb : List UsbDevice) :
    Except MainError (List Device) :=
  match find_devices boot usb with
  | none => .error .enumerationFailed
  | some devices =>
    if devices.isEmpty then .error .noDevices else .ok devices

/-- The exact frame `ccid_transmit` builds for an in-range payload, as the
spec describes it: 4-byte header, optional length-prefixed data, optional
expected-length byte. -/
def apdu_frame (ins p1 p2 : Nat) (data : List Nat) (le : Option Nat) : List Nat :=
  [0x00, ins, p1, p2] ++
    (if data.isEmpty then [] else data.length :: data) ++
    (match le with | none => [] | some l => [l])

theorem ccid_request_ok (ins p1 p2 : Nat) (data : List Nat) (le : Option Nat)
    (h : data.length ≤ 255) :
    ccid_request ins p1 p2 data le = .ok (apdu_frame ins p1 p2 data le) := by
  cases data with
  | nil => simp [ccid_request, apdu_frame]
  | cons a as =>
    have h' : as.length ≤ 254 := by simpa using h
    simp [ccid_request, apdu_frame, h']

theorem ccid_request_too_long (ins p1 p2 : Nat) (data : List Nat) (le : Option Nat)
    (h : 255 < data.length) :
    ccid_request ins p1 p2 data le = .error .configError := by
  cases data with
  | nil => simp at h
  | cons a as =>
    have h' : ¬ (a :: as).length ≤ 255 := by omega
    have h'' : 254 < as.length := by simp at h; omega
    simp [ccid_request, h', h'']

theorem ccid_parse_response_ok_length {l p : List Nat}
    (h : ccid_parse_response l = .ok p) : p.length + 2 = l.length := by
  unfold ccid_parse_response at h
  rcases hrev : l.reverse with _ | ⟨sw2, _ | ⟨sw1, rest⟩⟩ <;> rw [hrev] at h
  · simp at h
  · simp at h
  · have hl : l.length = rest.length + 2 := by
      have hc := congrArg List.length hrev
      simpa using hc
    by_cases hsw : sw1 = 0x90 ∧ sw2 = 0x00
    · obtain ⟨h1, h2⟩ := hsw
      subst h1
      subst h2
      simp at h
      simp [← h, hl]
    · simp [hsw] at h

/-- Claim C1: for every data payload of length 0-255, `ccid_transmit`
frames the request as the 4-byte header `[0x00, ins, p1, p2]`, then — only
for non-empty data — one length byte equal to the data length followed by
the data, then — only when an expected response length is given — the
single expected-length byte, and hands exactly this frame to the
transport; for a payload longer than 255 bytes it fails with the
configuration error (a variant distinct from the transport-failure one)
for every transport, so the transport's transmit is never consulted. -/
theorem ccid_transmit_framing (ins p1 p2 : Nat) (data : List Nat) (le : Option Nat) :
    (data.length ≤ 255 →
      ccid_request ins p1 p2 data le =
        .ok ([0x00, ins, p1, p2] ++
          (if data.isEmpty then [] else data.length :: data) ++
          (match le with | none => [] | some l => [l])) ∧
      ∀ t : Transport, ccid_transmit t ins p1 p2 data le =
        match t (apdu_frame ins p1 p2 data le) (ccid_response_len le) with
        | none => .error .transportError
        | some raw => ccid_parse_response (raw.take (ccid_response_len le))) ∧
    (255 < data.length →
      (∀ t : Transport, ccid_transmit t ins p1 p2 data le = .error .configError) ∧
      CcidError.configError ≠ CcidError.transportError) := by
  constructor
  · intro h
    refine ⟨ccid_request_ok ins p1 p2 data le h, fun t => ?_⟩
    unfold ccid_transmit
    rw [ccid_request_ok ins p1 p2 data le h]
  · intro h
    refine ⟨fun t => ?_, by simp⟩
    unfold ccid_transmit
    rw [ccid_request_too_long ins p1 p2 data le h]

/-- Claim C1 witness: concrete instances of both branches. -/
theorem ccid_transmit_framing_witness :
    (ccid_request 0xA4 0x04 0x00 [0xA0, 0x01] (some 16) =
      .ok ([0x00, 0xA4, 0x04, 0x00] ++
        (if ([0xA0, 0x01] : List Nat).isEmpty then [] else ([0xA0, 0x01] : List Nat).length :: [0xA0, 0x01]) ++
        [16]) ∧
      ccid_transmit (fun _ _ => none) 0xA4 0x04 0x00 (List.replicate 256 0) none = .error .configError) := by
  refine ⟨((ccid_transmit_framing 0xA4 0x04 0x00 [0xA0, 0x01] (some 16)).1 (by decide)).1, ?_⟩
  exact ((ccid_transmit_framing 0xA4 0x04 0x00 (List.replicate 256 0) none).2
    (by rw [List.length_replicate]; omega)).1 _

/-- Claim C2: for every raw response `ccid_transmit` receives (any byte
list fitting the reserved buffer): fewer than 2 bytes is the framing
error; a response whose last two bytes are exactly `0x90 0x00` is a
success whose payload is the response with exactly those two trailing
bytes removed; any other trailing pair is the command error carrying the
two status bytes. -/
theorem ccid_transmit_status_word (ins p1 p2 : Nat) (le : Option Nat) (raw : List Nat)
    (h : raw.length ≤ ccid_response_len le) :
    (raw.length < 2 →
      ccid_transmit (fun _ _ => some raw) ins p1 p2 [] le = .error .framingError) ∧
    (∀ payload, raw = payload ++ [0x90, 0x00] →
      ccid_transmit (fun _ _ => some raw) ins p1 p2 [] le = .ok payload) ∧
    (∀ payload sw1 sw2, raw = payload ++ [sw1, sw2] → ¬(sw1 = 0x90 ∧ sw2 = 0x00) →
      ccid_transmit (fun _ _ => some raw) ins p1 p2 [] le =
        .error (.commandError sw1 sw2)) := by
  have hred : ccid_transmit (fun _ _ => some raw) ins p1 p2 [] le =
      ccid_parse_response raw := by
    unfold ccid_transmit
    rw [ccid_request_ok ins p1 p2 [] le (by simp)]
    simp [List.take_of_length_le h]
  refine ⟨fun hlen => ?_, fun payload hp => ?_, fun payload sw1 sw2 hp hsw => ?_⟩
  · rw [hred]
    unfold ccid_parse_response
    rcases hrev : raw.reverse with _ | ⟨a, _ | ⟨b, rest⟩⟩
    · rfl
    · rfl
    · have : raw.length = raw.reverse.length := (List.length_reverse raw).symm
      rw [hrev] at this
      simp at this
      omega
  · rw [hred, hp]
    unfold ccid_parse_response
    simp
  · rw [hred, hp]
    unfold ccid_parse_response
    simp only [List.reverse_append, List.reverse_cons, List.reverse_nil,
      List.nil_append, List.cons_append, List.append_assoc]
    rw [if_neg hsw]

/-- Claim C2 witness: the three cases at concrete responses. -/
theorem ccid_transmit_status_word_witness :
    ccid_transmit (fun _ _ => some [0x42]) 0x62 0x00 0x00 [] (some 16) = .error .framingError ∧
    ccid_transmit (fun _ _ => some [0x01, 0x02, 0x90, 0x00]) 0x62 0x00 0x00 [] (some 16) =
      .ok [0x01, 0x02] ∧
    ccid_transmit (fun _ _ => some [0x6A, 0x82]) 0x62 0x00 0x00 [] (some 16) =
      .error (.commandError 0x6A 0x82) := by
  refine ⟨(ccid_transmit_status_word 0x62 0x00 0x00 (some 16) [0x42] (by decide)).1 (by decide),
    (ccid_transmit_status_word 0x62 0x00 0x00 (some 16) [0x01, 0x02, 0x90, 0x00] (by decide)).2.1
      [0x01, 0x02] rfl,
    (ccid_transmit_status_word 0x62 0x00 0x00 (some 16) [0x6A, 0x82] (by decide)).2.2
      [] 0x6A 0x82 rfl (by decide)⟩

/-- Claim C3: the reserved response buffer has exactly `2 + capacity`
bytes, with capacity 0 for `none`, 256 for `some 0`, and the literal
value for `some n`, `1 ≤ n ≤ 255`. -/
theorem ccid_response_buffer_sizing :
    ccid_response_len none = 2 + 0 ∧
    ccid_response_len (some 0) = 2 + 256 ∧
    ∀ n : Nat, 1 ≤ n → n ≤ 255 → ccid_response_len (some n) = 2 + n := by
  refine ⟨rfl, rfl, fun n h1 _ => ?_⟩
  match n, h1 with
  | n + 1, _ => simp [ccid_response_len]; omega

/-- Claim C3 witness: concrete buffer sizes. -/
theorem ccid_response_buffer_sizing_witness :
    ccid_response_len (some 16) = 2 + 16 :=
  ccid_response_buffer_sizing.2.2 16 (by decide) (by decide)

/-- Claim C10: a successful `ccid_transmit` with no expected response
length always returns the empty payload: the buffer holds 2 bytes, the
transport writes at most that many, and the two status bytes are removed. -/
theorem ccid_transmit_none_payload_empty (t : Transport) (ins p1 p2 : Nat)
    (data payload : List Nat)
    (h : ccid_transmit t ins p1 p2 data none = .ok payload) : payload = [] := by
  rcases hreq : ccid_request ins p1 p2 data none with e | request
  · simp only [ccid_transmit, hreq] at h
    exact Except.noConfusion h
  · simp only [ccid_transmit, hreq] at h
    rcases htr : t request (ccid_response_len none) with _ | raw <;> rw [htr] at h
    · simp at h
    · simp only at h
      have hlen := ccid_parse_response_ok_length h
      have htake : (raw.take (ccid_response_len none)).length ≤ 2 := by
        simp [ccid_response_len]
      have : payload.length = 0 := by omega
      exact List.length_eq_zero.mp this

/-- Claim C10 witness: a plain select against a card answering only the
success status word yields the empty payload. -/
theorem ccid_transmit_none_payload_empty_witness : ([] : List Nat) = [] :=
  ccid_transmit_none_payload_empty (fun _ _ => some [0x90, 0x00]) 0xA4 0x04 0x00
    AID_ADMIN [] (by rfl)

theorem ccid_parse_response_success (payload : List Nat) :
    ccid_parse_response (payload ++ [0x90, 0x00]) = .ok payload := by
  unfold ccid_parse_response
  simp

theorem from_be_bytes_append (xs : List Nat) (b : Nat) :
    from_be_bytes (xs ++ [b]) = from_be_bytes xs * 256 + b := by
  simp [from_be_bytes, List.foldl_append]

theorem to_from_be_bytes (l : List Nat) (hb : ∀ b ∈ l, b < 256) :
    to_be_bytes l.length (from_be_bytes l) = l := by
  induction l using List.reverseRecOn with
  | nil => simp [to_be_bytes, from_be_bytes]
  | append_singleton xs b ih =>
    have hb' : ∀ x ∈ xs, x < 256 := fun x hx => hb x (by simp [hx])
    have hblt : b < 256 := hb b (by simp)
    rw [from_be_bytes_append]
    have hlen : (xs ++ [b]).length = xs.length + 1 := by simp
    rw [hlen]
    simp only [to_be_bytes]
    have hdiv : (from_be_bytes xs * 256 + b) / 256 = from_be_bytes xs := by omega
    have hmod : (from_be_bytes xs * 256 + b) % 256 = b := by omega
    rw [hdiv, hmod, ih hb']

/-- Claim C5: the identity query frames instruction 0x62 with both
parameters 0x00, no data and expected length 16 (so the transport sees
exactly the frame `[0x00, 0x62, 0x00, 0x00, 0x10]` and an 18-byte
buffer); a 16-byte success payload is decoded as the big-endian 128-bit
integer, so that re-encoding the value big-endian reproduces the payload;
any payload of another length yields the parse error, a variant distinct
from the CCID transport and status failures. -/
theorem admin_get_uuid_spec :
    ccid_request 0x62 0x00 0x00 [] (some 16) = .ok [0x00, 0x62, 0x00, 0x00, 0x10] ∧
    (∀ t1 t2 : Transport,
      t1 [0x00, 0x62, 0x00, 0x00, 0x10] 18 = t2 [0x00, 0x62, 0x00, 0x00, 0x10] 18 →
      admin_get_uuid t1 = admin_get_uuid t2) ∧
    (∀ payload : List Nat, payload.length = 16 → (∀ b ∈ payload, b < 256) →
      admin_get_uuid (fun _ _ => some (payload ++ [0x90, 0x00])) =
        .ok (from_be_bytes payload) ∧
      to_be_bytes 16 (from_be_bytes payload) = payload) ∧
    (∀ payload : List Nat, payload.length ≤ 16 → payload.length ≠ 16 →
      admin_get_uuid (fun _ _ => some (payload ++ [0x90, 0x00])) = .error .parse) := by
  refine ⟨rfl, fun t1 t2 hag => ?_, fun payload hlen hbytes => ?_, fun payload hle16 hne => ?_⟩
  · simp [admin_get_uuid, ccid_transmit, ccid_request, ccid_response_len, hag]
  · have hle : (payload ++ [0x90, 0x00]).length ≤ 18 := by simp [hlen]
    refine ⟨?_, ?_⟩
    · simp [admin_get_uuid, ccid_transmit, ccid_request, ccid_response_len,
        List.take_of_length_le hle, ccid_parse_response_success, hlen]
    · have hrt := to_from_be_bytes payload hbytes
      rwa [hlen] at hrt
  · have hle : (payload ++ [0x90, 0x00]).length ≤ 18 := by simp; omega
    simp [admin_get_uuid, ccid_transmit, ccid_request, ccid_response_len,
      List.take_of_length_le hle, ccid_parse_response_success, hne]

/-- Claim C5 witness: decoding and re-encoding a concrete 16-byte
payload, and the parse error on the empty payload. -/
theorem admin_get_uuid_spec_witness :
    admin_get_uuid
      (fun _ _ => some ([0, 0, 0, 0, 0, 0, 0, 0, 0, 0, 0, 0, 0, 0, 0, 1] ++ [0x90, 0x00])) =
      .ok (from_be_bytes [0, 0, 0, 0, 0, 0, 0, 0, 0, 0, 0, 0, 0, 0, 0, 1]) ∧
    to_be_bytes 16 (from_be_bytes [0, 0, 0, 0, 0, 0, 0, 0, 0, 0, 0, 0, 0, 0, 0, 1]) =
      [0, 0, 0, 0, 0, 0, 0, 0, 0, 0, 0, 0, 0, 0, 0, 1] ∧
    admin_get_uuid (fun _ _ => some ([] ++ [0x90, 0x00])) = .error .parse :=
  ⟨(admin_get_uuid_spec.2.2.1 [0, 0, 0, 0, 0, 0, 0, 0, 0, 0, 0, 0, 0, 0, 0, 1]
      (by decide) (by decide)).1,
   (admin_get_uuid_spec.2.2.1 [0, 0, 0, 0, 0, 0, 0, 0, 0, 0, 0, 0, 0, 0, 0, 1]
      (by decide) (by decide)).2,
   admin_get_uuid_spec.2.2.2 [] (by decide) (by decide)⟩

/-- Claim C4: classification is total and mutually exclusive — each name
yields exactly one of the three `Reader` variants — and a name that does
not start with the firmware-reader name prefix is classified `Other`
carrying the raw name, for every possible PC/SC context (so no connect
call can influence or be required for the result). -/
theorem classify_reader_total_exclusive (ctx : PcscCtx) (name : List Nat) :
    ((isFirmwareTag (classify_reader ctx name)).toNat +
     (isUnsupportedTag (classify_reader ctx name)).toNat +
     (isOtherTag (classify_reader ctx name)).toNat = 1) ∧
    (FIRMWARE_READER_NAME.isPrefixOf name = false →
      ∀ c : PcscCtx, classify_reader c name = .Other name) := by
  constructor
  · rcases classify_reader ctx name with r | e | m <;>
      simp [isFirmwareTag, isUnsupportedTag, isOtherTag]
  · intro hpre c
    simp [classify_reader, hpre]

/-- Claim C4 witness: a non-matching name is `Other` under a context that
cannot connect to anything. -/
theorem classify_reader_total_exclusive_witness :
    classify_reader ⟨fun _ => none⟩ [0x41] = .Other [0x41] :=
  (classify_reader_total_exclusive ⟨fun _ => none⟩ [0x41]).2 (by decide) ⟨fun _ => none⟩

/-- Claim C9: the classifier's output has the same length as the listed
reader names and its i-th element is the classification of the i-th name:
order preserved, no deduplication. -/
theorem get_readers_order_preserving (ctx : PcscCtx) (names : List (List Nat)) :
    (get_readers ctx names).length = names.length ∧
    ∀ i : Nat, (get_readers ctx names)[i]? = (names[i]?).map (classify_reader ctx) := by
  constructor
  · simp [get_readers]
  · intro i
    simp [get_readers]

/-- Claim C6: once connect, transaction, admin select and identity query
have succeeded, a provisioner-select failure is never propagated — the
result is a `Firmware` reader whose provisioner flag is true exactly when
the provisioner select succeeded — whereas a failing admin select or
identity query fails the whole per-reader classification (an
`Unsupported` entry). -/
theorem get_firmware_reader_provisioner_probe (ctx : PcscCtx) (name : List Nat)
    (card : Card) (t : Transport)
    (hc : ctx.connect name = some card) (ht : card.transaction = some t) :
    (∀ uuid, ccid_select t AID_ADMIN = .ok () → admin_get_uuid t = .ok uuid →
      get_firmware_reader ctx name =
        .ok { uuid := uuid, provisioner := (ccid_select2 t AID_PROVISIONER).toBool } ∧
      ((ccid_select2 t AID_PROVISIONER).toBool = true ↔
        ccid_select2 t AID_PROVISIONER = .ok ()) ∧
      (FIRMWARE_READER_NAME.isPrefixOf name = true →
        classify_reader ctx name =
          .Firmware { uuid := uuid, provisioner := (ccid_select2 t AID_PROVISIONER).toBool })) ∧
    (∀ e, ccid_select t AID_ADMIN = .error e →
      get_firmware_reader ctx name = .error (.selectAdmin e) ∧
      (FIRMWARE_READER_NAME.isPrefixOf name = true →
        classify_reader ctx name = .Unsupported (.selectAdmin e))) ∧
    (∀ e, ccid_select t AID_ADMIN = .ok () → admin_get_uuid t = .error e →
      get_firmware_reader ctx name = .error (.queryUuid e) ∧
      (FIRMWARE_READER_NAME.isPrefixOf name = true →
        classify_reader ctx name = .Unsupported (.queryUuid e))) := by
  refine ⟨fun uuid hsel huuid => ?_, fun e hsel => ?_, fun e hsel huuid => ?_⟩
  · have hg : get_firmware_reader ctx name =
        .ok { uuid := uuid, provisioner := (ccid_select2 t AID_PROVISIONER).toBool } := by
      simp [get_firmware_reader, hc, ht, hsel, huuid]
    refine ⟨hg, ?_, fun hpre => ?_⟩
    · rcases h2 : ccid_select2 t AID_PROVISIONER with e2 | u2
      · simp [Except.toBool]
      · cases u2
        simp [Except.toBool]
    · simp [classify_reader, hpre, hg]
  · have hg : get_firmware_reader ctx name = .error (.selectAdmin e) := by
      simp [get_firmware_reader, hc, ht, hsel]
    exact ⟨hg, fun hpre => by simp [classify_reader, hpre, hg]⟩
  · have hg : get_firmware_reader ctx name = .error (.queryUuid e) := by
      simp [get_firmware_reader, hc, ht, hsel, huuid]
    exact ⟨hg, fun hpre => by simp [classify_reader, hpre, hg]⟩

/-- Claim C6 witness: a card answering every command with zero padding
and the success status word is classified as a firmware reader with the
provisioner flag set. -/
theorem get_firmware_reader_provisioner_probe_witness :
    get_firmware_reader
      ⟨fun _ => some ⟨some (fun _ n => some (List.replicate (n - 2) 0 ++ [0x90, 0x00]))⟩⟩
      FIRMWARE_READER_NAME = .ok { uuid := 0, provisioner := true } :=
  ((get_firmware_reader_provisioner_probe
      ⟨fun _ => some ⟨some (fun _ n => some (List.replicate (n - 2) 0 ++ [0x90, 0x00]))⟩⟩
      FIRMWARE_READER_NAME
      ⟨some (fun _ n => some (List.replicate (n - 2) 0 ++ [0x90, 0x00]))⟩
      (fun _ n => some (List.replicate (n - 2) 0 ++ [0x90, 0x00]))
      rfl rfl).1 0 (by rfl) (by rfl)).1

theorem find_firmware_devices_all_some (usb : List UsbDevice)
    (hall : ∀ d ∈ usb, d.descriptor.isSome) :
    find_firmware_devices usb =
      some ((usb.filter fun d =>
          d.descriptor = some (VID_FIRMWARE, PID_FIRMWARE)).map
        fun d => Device.Firmware d.bus d.address) := by
  induction usb with
  | nil => simp [find_firmware_devices]
  | cons d ds ih =>
    obtain ⟨vidpid, hd⟩ := Option.isSome_iff_exists.mp (hall d (by simp))
    obtain ⟨vid, pid⟩ := vidpid
    have ihd := ih fun x hx => hall x (by simp [hx])
    simp only [find_firmware_devices, hd]
    by_cases hm : vid = VID_FIRMWARE ∧ pid = PID_FIRMWARE
    · have hpred : d.descriptor = some (VID_FIRMWARE, PID_FIRMWARE) := by
        rw [hd, hm.1, hm.2]
      rw [if_pos hm, ihd]
      simp [List.filter_cons, hpred]
    · have hpred : ¬ d.descriptor = some (VID_FIRMWARE, PID_FIRMWARE) := by
        rw [hd]
        intro hcon
        simp at hcon
        exact hm ⟨hcon.1, hcon.2⟩
      rw [if_neg hm, ihd]
      simp [List.filter_cons, hpred]

theorem find_firmware_devices_descriptor_failure (usb : List UsbDevice)
    (hex : ∃ d ∈ usb, d.descriptor = none) :
    find_firmware_devices usb = none := by
  induction usb with
  | nil =>
    obtain ⟨d, hd, _⟩ := hex
    simp at hd
  | cons x xs ih =>
    obtain ⟨d, hd, hnone⟩ := hex
    rcases List.mem_cons.mp hd with rfl | hmem
    · simp [find_firmware_devices, hnone]
    · simp only [find_firmware_devices]
      rcases hx : x.descriptor with _ | ⟨vid, pid⟩
      · rfl
      · rw [ih ⟨d, hmem, hnone⟩]
        by_cases hm : vid = VID_FIRMWARE ∧ pid = PID_FIRMWARE
        · simp [hm]
        · simp [hm]

/-- Claim C7: `find_devices` includes every reported bootloader device
without filtering (in order, ahead of the firmware devices); when every
descriptor query succeeds, the firmware devices are exactly the USB
devices whose vendor id is 0x1209 and product id is 0xBEEE, carried with
their bus and address; and a single failing descriptor query fails the
whole enumeration instead of producing a partial list. -/
theorem find_devices_enumeration (boot : List BootloaderDev) (usb : List UsbDevice) :
    (∀ fw, find_firmware_devices usb = some fw →
      find_devices boot usb =
        some ((boot.map fun b => Device.Bootloader b.vid b.pid b.uuid) ++ fw)) ∧
    ((∀ d ∈ usb, d.descriptor.isSome) →
      find_firmware_devices usb =
        some ((usb.filter fun d =>
            d.descriptor = some (VID_FIRMWARE, PID_FIRMWARE)).map
          fun d => Device.Firmware d.bus d.address)) ∧
    ((∃ d ∈ usb, d.descriptor = none) → find_devices boot usb = none) := by
  refine ⟨fun fw hfw => ?_, find_firmware_devices_all_some usb, fun hex => ?_⟩
  · simp [find_devices, hfw, find_bootloader_devices]
  · simp [find_devices, find_firmware_devices_descriptor_failure usb hex]

/-- Claim C7 witness: a concrete merge keeping the matching USB device,
and a failing enumeration caused by one bad descriptor. -/
theorem find_devices_enumeration_witness :
    find_devices [⟨1, 2, 3⟩] [⟨some (0x1209, 0xbeee), 5, 7⟩, ⟨some (0x1209, 0x5070), 1, 1⟩] =
      some [Device.Bootloader 1 2 3, Device.Firmware 5 7] ∧
    find_devices [] [⟨some (0x1209, 0xbeee), 5, 7⟩, ⟨none, 0, 0⟩] = none :=
  ⟨(find_devices_enumeration [⟨1, 2, 3⟩]
      [⟨some (0x1209, 0xbeee), 5, 7⟩, ⟨some (0x1209, 0x5070), 1, 1⟩]).1
      [Device.Firmware 5 7] (by decide),
   (find_devices_enumeration [] [⟨some (0x1209, 0xbeee), 5, 7⟩, ⟨none, 0, 0⟩]).2.2
      ⟨⟨none, 0, 0⟩, by simp, rfl⟩⟩

/-- Claim C8: an empty merged device list makes the program fail with the
explicit no-devices error — which is distinct from any successful result —
while a non-empty list never fails for that reason. -/
theorem main_no_devices_failure (boot : List BootloaderDev) (usb : List UsbDevice) :
    (find_devices boot usb = some [] →
      main_find_devices boot usb = .error .noDevices) ∧
    (∀ devices, find_devices boot usb = some devices → devices ≠ [] →
      main_find_devices boot usb = .ok devices) ∧
    ∀ devices : List Device,
      (Except.error MainError.noDevices : Except MainError (List Device)) ≠ .ok devices := by
  refine ⟨fun h => ?_, fun devices h hne => ?_, fun devices => by simp⟩
  · simp [main_find_devices, h]
  · simp [main_find_devices, h, hne]

/-- Claim C8 witness: nothing connected fails with the no-devices error;
one bootloader device yields a successful result. -/
theorem main_no_devices_failure_witness :
    main_find_devices [] [] = .error .noDevices ∧
    main_find_devices [⟨1, 2, 3⟩] [] = .ok [Device.Bootloader 1 2 3] :=
  ⟨(main_no_devices_failure [] []).1 rfl,
   (main_no_devices_failure [⟨1, 2, 3⟩] []).2.1 [Device.Bootloader 1 2 3] rfl (by simp)⟩

end NkDiagnose
